import Mathlib

/-!
Verification of the ResearchAssistantAI topic-processing pipeline
(supabase/functions/research-workflow/index.ts).

The edge function source contains two variants of the workflow handler.
Variant 1 uses searchAgent / reviewerAgent / proposalAgent / criticAgent;
variant 2 uses searchPapers / generateSummary / identifyResearchGaps /
generateProposal.  Both are embedded here.  JavaScript strings are
modelled as Lean `String` (character-based), the hand-rolled regex
extraction over the arXiv XML is modelled by explicit first-occurrence
searches and a backtracking matcher for the pdf-link pattern, and the
side-effecting pipeline is modelled as a trace of persistence events.
-/

namespace RAI

abbrev Chars := List Char

/-- JS `String.prototype.trim` (ASCII whitespace). -/
def trimChars (s : Chars) : Chars :=
  ((s.dropWhile Char.isWhitespace).reverse.dropWhile Char.isWhitespace).reverse

/-- JS `.replace(/\n/g, " ")`: every newline becomes a space. -/
def replaceNewlines (s : Chars) : Chars :=
  s.map fun c => if c = '\n' then ' ' else c

def strOf (s : Chars) : String := String.mk s

/-- First occurrence of `needle` in the haystack: returns the part before
the occurrence and the part after it.  This is the semantics of a lazy
`[\s\S]*?` regex search for a literal. -/
def splitFirst (needle : Chars) : Chars → Option (Chars × Chars)
  | [] => if needle.isEmpty then some ([], []) else none
  | c :: rest =>
    if needle.isPrefixOf (c :: rest) then
      some ([], (c :: rest).drop needle.length)
    else
      match splitFirst needle rest with
      | some (pre, post) => some (c :: pre, post)
      | none => none

theorem isPrefixOf_drop_eq : ∀ (l s : Chars), l.isPrefixOf s = true →
    s = l ++ s.drop l.length
  | [], s, _ => rfl
  | a :: as, [], h => by simp [List.isPrefixOf] at h
  | a :: as, b :: bs, h => by
    simp only [List.isPrefixOf, Bool.and_eq_true, beq_iff_eq] at h
    obtain ⟨rfl, h2⟩ := h
    simpa using isPrefixOf_drop_eq as bs h2

theorem isPrefixOf_self_append : ∀ (l t : Chars), l.isPrefixOf (l ++ t) = true
  | [], _ => by simp [List.isPrefixOf]
  | a :: as, t => by
    simp only [List.cons_append, List.isPrefixOf, Bool.and_eq_true, beq_self_eq_true, true_and]
    exact isPrefixOf_self_append as t

theorem splitFirst_append_self {needle : Chars} (hn : needle ≠ []) (y : Chars) :
    splitFirst needle (needle ++ y) = some ([], y) := by
  cases needle with
  | nil => exact absurd rfl hn
  | cons c cs =>
    have hpre := isPrefixOf_self_append (c :: cs) y
    simp only [List.cons_append] at hpre
    simp only [List.cons_append, splitFirst, List.append_eq]
    rw [if_pos hpre]
    simp

theorem splitFirst_eq_append {needle : Chars} : ∀ {s pre post : Chars},
    splitFirst needle s = some (pre, post) → s = pre ++ needle ++ post
  | [], pre, post, h => by
    by_cases hn : needle.isEmpty
    · simp only [splitFirst, hn, if_true, Option.some.injEq, Prod.mk.injEq] at h
      obtain ⟨rfl, rfl⟩ := h
      simp [List.isEmpty_iff.mp hn]
    · simp [splitFirst, hn] at h
  | c :: rest, pre, post, h => by
    rw [splitFirst] at h
    by_cases hp : needle.isPrefixOf (c :: rest) = true
    · simp only [hp, if_true, Option.some.injEq, Prod.mk.injEq] at h
      obtain ⟨rfl, rfl⟩ := h
      simpa using isPrefixOf_drop_eq needle (c :: rest) hp
    · simp only [hp, if_false] at h
      cases hrec : splitFirst needle rest with
      | none => simp [hrec] at h
      | some pq =>
        obtain ⟨p, q⟩ := pq
        simp only [hrec, Option.some.injEq, Prod.mk.injEq] at h
        obtain ⟨rfl, rfl⟩ := h
        have := splitFirst_eq_append hrec
        simp [this]

theorem splitFirst_post_suffix {needle s pre post : Chars}
    (h : splitFirst needle s = some (pre, post)) : post <:+ s :=
  ⟨pre ++ needle, by simpa [List.append_assoc] using (splitFirst_eq_append h).symm⟩

theorem splitFirst_post_length_le {needle s pre post : Chars}
    (h : splitFirst needle s = some (pre, post)) : post.length ≤ s.length := by
  have := splitFirst_eq_append h
  subst this
  simp
  omega

theorem splitFirst_post_length_lt {needle s pre post : Chars}
    (hn : needle ≠ [])
    (h : splitFirst needle s = some (pre, post)) : post.length < s.length := by
  have := splitFirst_eq_append h
  subst this
  have : 0 < needle.length := List.length_pos.mpr hn
  simp
  omega

/-- Completeness of `splitFirst`: if some occurrence exists then the search
succeeds, and everything after the exhibited occurrence is kept. -/
theorem splitFirst_of_decomp {needle : Chars} (hn : needle ≠ []) :
    ∀ (x y : Chars), ∃ pre post,
      splitFirst needle (x ++ needle ++ y) = some (pre, post) ∧ y <:+ post := by
  intro x
  induction x with
  | nil =>
    intro y
    refine ⟨[], y, ?_, List.suffix_refl y⟩
    simpa using splitFirst_append_self hn y
  | cons a x ih =>
    intro y
    obtain ⟨pre, post, hsp, hsuf⟩ := ih y
    by_cases hp : needle.isPrefixOf (a :: (x ++ needle ++ y)) = true
    · refine ⟨[], (a :: (x ++ needle ++ y)).drop needle.length, ?_, ?_⟩
      · simp only [List.cons_append, splitFirst, List.append_eq]
        rw [if_pos (by simpa using hp)]
      · have hsfx : (a :: (x ++ needle ++ y)).drop needle.length <:+
            a :: (x ++ needle ++ y) := List.drop_suffix _ _
        have hy : y <:+ a :: (x ++ needle ++ y) :=
          ⟨a :: (x ++ needle), by simp [List.append_assoc]⟩
        refine List.suffix_of_suffix_length_le hy hsfx ?_
        have hnl : 0 < needle.length := List.length_pos.mpr hn
        rw [List.length_drop]
        simp only [List.length_cons, List.length_append]
        omega
    · refine ⟨a :: pre, post, ?_, hsuf⟩
      simp only [List.cons_append, splitFirst, List.append_eq]
      rw [if_neg (by simpa using hp)]
      rw [hsp]

/-- Monotonicity: a successful search in a suffix succeeds in the whole
list, keeping at least as much of the tail. -/
theorem splitFirst_suffix_mono {needle t h : Chars} (hn : needle ≠ [])
    (hsuf : t <:+ h) {pre post : Chars}
    (hsp : splitFirst needle t = some (pre, post)) :
    ∃ pre2 post2, splitFirst needle h = some (pre2, post2) ∧ post <:+ post2 := by
  obtain ⟨p, rfl⟩ := hsuf
  have hteq := splitFirst_eq_append hsp
  obtain ⟨pre2, post2, hsp2, hsuf2⟩ :=
    @splitFirst_of_decomp needle hn (p ++ pre) post
  refine ⟨pre2, post2, ?_, hsuf2⟩
  rw [← hsp2]
  congr 1
  rw [hteq]
  simp [List.append_assoc]

/-- Greedy in-order multi-needle search: each needle is looked up after the
end of the previous needle's first occurrence.  A sound and complete checker
for "the haystack contains these substrings in this order". -/
def containsInOrder (hay : Chars) : List Chars → Bool
  | [] => true
  | n :: ns =>
    match splitFirst n hay with
    | none => false
    | some (_, rest) => containsInOrder rest ns

def containsInOrderS (s : String) (ns : List String) : Bool :=
  containsInOrder s.data (ns.map String.data)

def containsSubS (s needle : String) : Bool :=
  (splitFirst needle.data s.data).isSome

theorem containsInOrder_suffix_mono : ∀ (ns : List Chars) (t h : Chars),
    t <:+ h → containsInOrder t ns = true → containsInOrder h ns = true
  | [], _, _, _, _ => rfl
  | n :: ns, t, h, hsuf, hc => by
    rw [containsInOrder] at hc
    cases hspt : splitFirst n t with
    | none => rw [hspt] at hc; exact absurd hc (by simp)
    | some pq =>
      obtain ⟨pre, post⟩ := pq
      rw [hspt] at hc
      by_cases hn : n = []
      · subst hn
        have hpost : post = t := by
          cases t with
          | nil =>
            simp only [splitFirst, List.isEmpty_nil, if_true, Option.some.injEq,
              Prod.mk.injEq] at hspt
            exact hspt.2.symm
          | cons c cs =>
            have hpre : ([] : Chars).isPrefixOf (c :: cs) = true := rfl
            rw [splitFirst, if_pos hpre] at hspt
            simp only [List.length_nil, List.drop_zero, Option.some.injEq,
              Prod.mk.injEq] at hspt
            exact hspt.2.symm
        rw [hpost] at hc
        rw [containsInOrder]
        have hsplit : splitFirst ([] : Chars) h = some (h.take 0, h) := by
          cases h with
          | nil => simp [splitFirst]
          | cons c cs =>
            have hpre : ([] : Chars).isPrefixOf (c :: cs) = true := rfl
            rw [splitFirst, if_pos hpre]
            simp
        rw [hsplit]
        exact containsInOrder_suffix_mono ns t h hsuf hc
      · obtain ⟨pre2, post2, hsp2, hsuf2⟩ := splitFirst_suffix_mono hn hsuf hspt
        rw [containsInOrder, hsp2]
        exact containsInOrder_suffix_mono ns post post2 hsuf2 hc

/-- Skip an irrelevant leading segment of the haystack. -/
theorem containsInOrder_skip {ns : List Chars} (a : Chars) {b : Chars}
    (h : containsInOrder b ns = true) : containsInOrder (a ++ b) ns = true :=
  containsInOrder_suffix_mono ns b (a ++ b) ⟨a, rfl⟩ h

/-- Consume a needle sitting at the front of the haystack. -/
theorem containsInOrder_hit {ns : List Chars} (n : Chars) (hn : n ≠ []) {b : Chars}
    (h : containsInOrder b ns = true) : containsInOrder (n ++ b) (n :: ns) = true := by
  rw [containsInOrder, splitFirst_append_self hn b]
  exact h

/-! ### The arXiv XML extraction (`parseArxivXML`, identical in both variants) -/

structure Paper where
  title : String
  abstract : String
  authors : List String
  url : String
  published_date : String
  source : String
deriving DecidableEq, Repr

/-- `/<entry>([\s\S]*?)<\/entry>/g`: repeatedly capture the text between the
next `<entry>` and the first `</entry>` after it, resuming after the match. -/
def extractEntries (s : Chars) : List Chars :=
  match h1 : splitFirst ("<entry>".data) s with
  | none => []
  | some (_, rest) =>
    match h2 : splitFirst ("</entry>".data) rest with
    | none => []
    | some (mid, rest2) => mid :: extractEntries rest2
termination_by s.length
decreasing_by
  have l1 : rest.length < s.length := splitFirst_post_length_lt (by decide) h1
  have l2 : rest2.length < rest.length := splitFirst_post_length_lt (by decide) h2
  omega

/-- A lazy `<open>…<close>` capture: first occurrence of the opening tag,
then the minimal stretch up to the closing tag. -/
def between (opn cls s : Chars) : Option Chars :=
  match splitFirst opn s with
  | none => none
  | some (_, rest) =>
    match splitFirst cls rest with
    | none => none
    | some (mid, _) => some mid

/-- `/<author>[\s\S]*?<name>([\s\S]*?)<\/name>[\s\S]*?<\/author>/g` with
`.trim()` applied to each captured name, as in the source loop. -/
def extractAuthors (s : Chars) : List Chars :=
  match h1 : splitFirst ("<author>".data) s with
  | none => []
  | some (_, r1) =>
    match h2 : splitFirst ("<name>".data) r1 with
    | none => []
    | some (_, r2) =>
      match h3 : splitFirst ("</name>".data) r2 with
      | none => []
      | some (nm, r3) =>
        match h4 : splitFirst ("</author>".data) r3 with
        | none => []
        | some (_, r4) => trimChars nm :: extractAuthors r4
termination_by s.length
decreasing_by
  have l1 : r1.length < s.length := splitFirst_post_length_lt (by decide) h1
  have l2 : r2.length ≤ r1.length := splitFirst_post_length_le h2
  have l3 : r3.length ≤ r2.length := splitFirst_post_length_le h3
  have l4 : r4.length < r3.length := splitFirst_post_length_lt (by decide) h4
  omega

/-- All ways the greedy `[^c]*` star can split the input, longest first:
the regex engine tries the maximal run of class characters and backtracks. -/
def starSplits (p : Char → Bool) (s : Chars) : List Chars :=
  ((List.range ((s.takeWhile p).length + 1)).reverse).map fun k => s.drop k

def litMatch (l s : Chars) : Option Chars :=
  if l.isPrefixOf s then some (s.drop l.length) else none

def firstSome (f : Chars → Option Chars) : List Chars → Option Chars
  | [] => none
  | x :: xs =>
    match f x with
    | some r => some r
    | none => firstSome f xs

/-- Attempt of `/<link[^>]*href="([^"]*)"[^>]*title="pdf"[^>]*\/>/` anchored
at the start of `s`, with the regex engine's greedy backtracking, returning
the captured href. -/
def tryLink (s : Chars) : Option Chars :=
  match litMatch ("<link".data) s with
  | none => none
  | some s1 =>
    firstSome (fun s2 =>
      match litMatch ("href=\"".data) s2 with
      | none => none
      | some s3 =>
        let cap := s3.takeWhile fun c => c != '"'
        match s3.drop cap.length with
        | '"' :: s5 =>
          firstSome (fun s6 =>
            match litMatch ("title=\"pdf\"".data) s6 with
            | none => none
            | some s7 =>
              firstSome (fun s8 =>
                match litMatch ("/>".data) s8 with
                | none => none
                | some _ => some cap) (starSplits (fun c => c != '>') s7))
            (starSplits (fun c => c != '>') s5)
        | _ => none) (starSplits (fun c => c != '>') s1)

/-- Leftmost match of the pdf-link pattern anywhere in `s`. -/
def findLink (s : Chars) : Option Chars :=
  match tryLink s with
  | some c => some c
  | none =>
    match s with
    | [] => none
    | _ :: rest => findLink rest

/-- Loop body of `parseArxivXML`: build a paper from one captured entry
block, or skip it when it has no `<title>` tag. -/
def entryToPaper (entry : Chars) : Option Paper :=
  let titleMatch := between ("<title>".data) ("</title>".data) entry
  let summaryMatch := between ("<summary>".data) ("</summary>".data) entry
  let linkMatch := findLink entry
  let publishedMatch := between ("<published>".data) ("</published>".data) entry
  let authors := extractAuthors entry
  match titleMatch with
  | none => none
  | some t =>
    some {
      title := strOf (replaceNewlines (trimChars t))
      abstract :=
        match summaryMatch with
        | some sm => strOf (replaceNewlines (trimChars sm))
        | none => ""
      authors := authors.map strOf
      url :=
        match linkMatch with
        | some u => strOf u
        | none => ""
      published_date :=
        match publishedMatch with
        | some d => strOf (d.takeWhile fun c => c != 'T')
        | none => ""
      source := "arXiv" }

/-- The `while ((match = entryRegex.exec(xml)) !== null)` loop of
`parseArxivXML`, pushing a paper for every entry that has a title match. -/
def parseLoop (s : Chars) : List Paper :=
  match h1 : splitFirst ("<entry>".data) s with
  | none => []
  | some (_, rest) =>
    match h2 : splitFirst ("</entry>".data) rest with
    | none => []
    | some (entry, rest2) =>
      match entryToPaper entry with
      | none => parseLoop rest2
      | some p => p :: parseLoop rest2
termination_by s.length
decreasing_by
  all_goals
    have l1 : rest.length < s.length := splitFirst_post_length_lt (by decide) h1
    have l2 : rest2.length < rest.length := splitFirst_post_length_lt (by decide) h2
    omega

/-- `parseArxivXML(xml)` (lines 159-196 and, identically, 537-574). -/
def parseArxivXML (xml : String) : List Paper := parseLoop xml.data

/-- `searchAgent` (lines 140-157): the fetch of the arXiv query and the read
of its body are modelled by an `Except` value; any transport failure is
caught and turned into `[]`.  `parseArxivXML` itself is total. -/
def searchAgent (fetchResult : Except String String) : List Paper :=
  match fetchResult with
  | Except.error _ => []
  | Except.ok xmlText => parseArxivXML xmlText

/-- `searchPapers` (lines 520-535, second variant): identical error
behaviour, differing only in the requested page size of the external URL. -/
def searchPapers (fetchResult : Except String String) : List Paper :=
  match fetchResult with
  | Except.error _ => []
  | Except.ok xmlText => parseArxivXML xmlText

/-! ### Agent functions, variant 1 (reviewerAgent / proposalAgent / criticAgent) -/

structure Gap where
  description : String
  priority : String
deriving DecidableEq, Repr

structure Theme where
  name : String
  description : String
deriving DecidableEq, Repr

structure Proposal where
  title : String
  content : String
deriving DecidableEq, Repr

/-- JS `str.repeat(n)`. -/
def strRepeat (s : String) (n : Nat) : String := String.join (List.replicate n s)

/-- JS `str.substring(0, n)` (character based). -/
def strTake (s : String) (n : Nat) : String := strOf (s.data.take n)

/-- JS `str.trim()` on a `String`. -/
def strTrim (s : String) : String := strOf (trimChars s.data)

/-- `generateThemes(papers, topic)` (lines 255-278); `topic` is already the
lowercased topic at the call site. -/
def generateThemes (papers : List Paper) (topic : String) : List Theme :=
  [ { name := "Foundational Approaches"
      description := "Core methodologies and established principles in " ++ topic ++
        " research that form the basis for contemporary work." },
    { name := "Advanced Applications"
      description := "Novel implementations and cutting-edge use cases demonstrating practical value of " ++
        topic ++ " research." },
    { name := "Integration Strategies"
      description := "Methods for combining " ++ topic ++
        " with complementary technologies and frameworks." },
    { name := "Performance Optimization"
      description := "Techniques for improving efficiency, scalability, and effectiveness in " ++
        topic ++ " systems." },
    { name := "Emerging Paradigms"
      description := "New conceptual frameworks and alternative approaches reshaping the " ++
        topic ++ " landscape." } ]

/-- One iteration of the `themes.forEach((theme, idx) => …)` loop. -/
def themeLine (it : Nat × Theme) : String :=
  toString (it.1 + 1) ++ ". " ++ it.2.name ++ "\n   " ++ it.2.description ++ "\n\n"

/-- One iteration of the `papers.slice(0, 8).forEach((paper, index) => …)`
loop of `reviewerAgent`. -/
def reviewerPaperBlock (ip : Nat × Paper) : String :=
  "Paper " ++ toString (ip.1 + 1) ++ ": " ++ ip.2.title ++ "\n"
  ++ "   Researchers: " ++ String.intercalate ", " (ip.2.authors.take 2)
  ++ (if ip.2.authors.length > 2 then " + " ++ toString (ip.2.authors.length - 2) ++ " more" else "")
  ++ "\n"
  ++ "   Year: " ++ ip.2.published_date ++ "\n"
  ++ (if ip.2.abstract ≠ "" then
        "   Focus: " ++ strTrim (strTake ip.2.abstract 250)
        ++ (if ip.2.abstract.length > 250 then "..." else "") ++ "\n"
      else "")
  ++ "\n"

/-- `reviewerAgent(papers, topic)` (lines 198-253). -/
def reviewerAgent (papers : List Paper) (topic : String) : String :=
  if papers.length == 0 then
    "No papers were found for the research topic: \"" ++ topic ++
      "\". Consider refining your search query or trying different keywords."
  else
    "COMPREHENSIVE RESEARCH SUMMARY: \"" ++ topic ++ "\"\n"
    ++ strRepeat "=" 70 ++ "\n\n"
    ++ "EXECUTIVE OVERVIEW\n"
    ++ strRepeat "─" 70 ++ "\n"
    ++ "This analysis synthesizes findings from " ++ toString papers.length
    ++ " peer-reviewed academic papers from arXiv. "
    ++ "The research landscape explores critical dimensions of " ++ topic.toLower
    ++ " with demonstrated diversity in approaches and methodologies.\n\n"
    ++ "THEMATIC ANALYSIS\n"
    ++ strRepeat "─" 70 ++ "\n"
    ++ (generateThemes papers topic.toLower).enum.foldl (fun acc it => acc ++ themeLine it) ""
    ++ "KEY PAPERS ANALYZED\n"
    ++ strRepeat "─" 70 ++ "\n\n"
    ++ (papers.take 8).enum.foldl (fun acc ip => acc ++ reviewerPaperBlock ip) ""
    ++ "RESEARCH MATURITY ASSESSMENT\n"
    ++ strRepeat "─" 70 ++ "\n"
    ++ "The field of " ++ topic.toLower ++ " shows:\n"
    ++ "• Active publication patterns with " ++ toString papers.length ++ " recent papers\n"
    ++ "• Diverse institutional collaboration across research centers\n"
    ++ "• Multi-disciplinary approaches addressing related challenges\n"
    ++ "• Emerging consensus on core methodologies and best practices\n\n"
    ++ "RESEARCH MOMENTUM\n"
    ++ strRepeat "─" 70 ++ "\n"
    ++ "The literature demonstrates substantial momentum in " ++ topic.toLower
    ++ ", indicating:\n"
    ++ "• Strong ongoing interest from the academic community\n"
    ++ "• Increasing practical applications and industry relevance\n"
    ++ "• Development of standardized evaluation frameworks\n"
    ++ "• Growing collaboration between theoretical and applied research\n"

/-- `proposalAgent(papers, topic)` (lines 280-315): a hardcoded list of
seven gap templates parameterized by the topic. -/
def proposalAgent (papers : List Paper) (topic : String) : List Gap :=
  [ { description := "Cross-domain Integration & Interoperability: While substantial research exists in specialized domains, there remains a critical gap in understanding how " ++
        topic ++ " concepts can be effectively integrated across different industries and technical platforms with minimal friction."
      priority := "high" },
    { description := "Scalability at Production Scale: Current approaches often succeed in controlled environments but demonstrate limitations when scaled to production-grade systems with millions of concurrent operations and real-world data heterogeneity."
      priority := "high" },
    { description := "Standardization & Reproducibility Framework: The field lacks comprehensive standards for benchmarking, evaluation metrics, and reproducibility protocols, making it difficult to compare methodologies across institutions and timelines."
      priority := "high" },
    { description := "Human-Computer Collaboration: Limited research addresses optimal design patterns for human-AI collaboration in " ++
        topic ++ ", particularly regarding user interfaces, trust mechanisms, and interpretability requirements."
      priority := "medium" },
    { description := "Cost-Benefit Analysis Framework: There's insufficient guidance on total cost of ownership, implementation complexity, and resource requirements for adopting " ++
        topic ++ " solutions in resource-constrained environments."
      priority := "medium" },
    { description := "Longitudinal Impact Studies: Long-term effects and sustainability of " ++
        topic ++ " implementations remain understudied, with most research focused on immediate outcomes rather than 3-5 year performance trajectories."
      priority := "medium" },
    { description := "Ethical & Societal Implications: Emerging concerns about fairness, bias, privacy, and societal impact of " ++
        topic ++ " require deeper investigation through interdisciplinary collaboration."
      priority := "low" } ]

/-- One line of the `papers.slice(0, 5).forEach` loop of `criticAgent`. -/
def criticPaperLine (ip : Nat × Paper) : String :=
  toString (ip.1 + 1) ++ ". **" ++ ip.2.title ++ "** (" ++ ip.2.published_date ++ ")\n   "
  ++ String.intercalate ", " (ip.2.authors.take 2) ++ "\n"

/-- The `priorityEmoji` conditional of `criticAgent`. -/
def priorityEmoji (priority : String) : String :=
  if priority == "high" then "⚡" else if priority == "medium" then "◆" else "◇"

/-- One block of the `gaps.forEach((gap, index) => …)` loop of `criticAgent`. -/
def criticGapBlock (ig : Nat × Gap) : String :=
  priorityEmoji ig.2.priority ++ " **Gap " ++ toString (ig.1 + 1) ++ " ("
  ++ ig.2.priority.toUpper ++ " PRIORITY)**\n" ++ ig.2.description ++ "\n\n"

/-- `criticAgent(topic, papers, gaps, summary)` (lines 317-398).  The
`summary` argument is accepted but never used, as in the source.  Literals
are split at section-header boundaries (string concatenation is
associative, so the value is unchanged). -/
def criticAgent (topic : String) (papers : List Paper) (gaps : List Gap)
    (summary : String) : Proposal :=
  let title := "Advanced Research Proposal: Strategic Advancement of " ++ topic
  let content :=
    "# " ++ title ++ "\n\n"
    ++ "## Executive Summary" ++ "\n\n"
    ++ "This research initiative proposes a comprehensive study to advance the field of "
    ++ topic
    ++ " through systematic investigation of identified gaps, synthesis of current knowledge, and validation of novel approaches. The proposal integrates insights from "
    ++ toString papers.length
    ++ " contemporary research papers with strategic focus on bridging theoretical understanding and practical implementation.\n\n"
    ++ "## 1. Research Context & Motivation\n\n"
    ++ "The landscape of " ++ topic
    ++ " has evolved significantly with diverse methodological approaches and expanding applications. Despite substantial progress, critical gaps remain in scalability, standardization, and practical implementation. This research directly addresses these challenges through a rigorously designed investigation.\n\n"
    ++ "## 2. Research Objectives" ++ " & Expected Outcomes\n\n"
    ++ "### Primary Objectives:\n\n"
    ++ "1. **Scalability Framework Development**: Design and validate architectures supporting production-scale deployment of "
    ++ topic ++ " systems with demonstrated performance across 10M+ operations\n"
    ++ "2. **Standardization Protocol Creation**: Develop comprehensive evaluation benchmarks and reproducibility standards for "
    ++ topic ++ " research\n"
    ++ "3. **Integration Methodology**: Establish frameworks for cross-domain integration of "
    ++ topic ++ " across diverse technical environments\n"
    ++ "4. **Impact Assessment**: Conduct longitudinal analysis of "
    ++ topic ++ " implementation outcomes across 12-24 month timelines\n\n"
    ++ "## 3. Literature Foundation\n\n"
    ++ "This research builds upon " ++ toString papers.length
    ++ " peer-reviewed publications including:\n\n"
    ++ (papers.take 5).enum.foldl (fun acc ip => acc ++ criticPaperLine ip) ""
    ++ "\n" ++ "## 4. Critical Gap Analysis" ++ "\n\n"
    ++ "Systematic analysis identified the following research gaps requiring targeted investigation:\n\n"
    ++ gaps.enum.foldl (fun acc ig => acc ++ criticGapBlock ig) ""
    ++ "## 5. Methodology" ++ " & Research Design\n\n"
    ++ "### Phase 1: Foundational Analysis (Months 1-4)\n"
    ++ "- Comprehensive meta-analysis of " ++ toString papers.length ++ "+ papers\n"
    ++ "- Development of evaluation frameworks and metrics\n"
    ++ "- Stakeholder interviews across industry and academia\n\n"
    ++ "### Phase 2: Prototype Development (Months 5-10)\n"
    ++ "- Design and implement novel " ++ topic ++ " architectures\n"
    ++ "- Validate scalability across production-level datasets\n"
    ++ "- Create standardization benchmarks\n\n"
    ++ "### Phase 3: Empirical Validation (Months 11-16)\n"
    ++ "- Deploy systems in real-world environments\n"
    ++ "- Conduct performance and usability studies\n"
    ++ "- Generate comprehensive documentation and guidelines\n\n"
    ++ "### Phase 4: Synthesis & Dissemination (Months 17-20)\n"
    ++ "- Consolidate findings and best practices\n"
    ++ "- Publish peer-reviewed research outcomes\n"
    ++ "- Develop open-source implementations and toolkits\n\n"
    ++ "## 6. Expected Contributions" ++ " to the Field\n\n"
    ++ "This research will advance " ++ topic ++ " through:\n\n"
    ++ "- **Theoretical Advancement**: Novel frameworks improving understanding of "
    ++ topic ++ " principles\n"
    ++ "- **Practical Toolkits**: Production-ready implementations and architectural patterns\n"
    ++ "- **Standardization**: Industry-accepted evaluation metrics and benchmarks\n"
    ++ "- **Knowledge Dissemination**: Comprehensive documentation enabling practitioner adoption\n\n"
    ++ "## 7. Innovation & Novelty\n\n"
    ++ "The proposed research introduces:\n"
    ++ "- First comprehensive scalability framework for production " ++ topic ++ " systems\n"
    ++ "- Unified standards for " ++ topic ++ " evaluation across diverse implementations\n"
    ++ "- Guidance for practical integration and deployment strategies\n\n"
    ++ "## 8. Project Timeline" ++ " & Milestones\n\n"
    ++ "- **Month 4**: Complete foundational analysis and publish interim findings\n"
    ++ "- **Month 10**: Prototype systems achieving 5M+ operation scalability\n"
    ++ "- **Month 16**: Real-world validation completion with performance reports\n"
    ++ "- **Month 20**: Final publication suite and open-source release\n\n"
    ++ "## 9. Conclusion\n\n"
    ++ "This research represents a strategic investment in advancing " ++ topic
    ++ " through rigorous investigation of critical gaps and development of practical solutions. By bridging theoretical foundations with production-grade implementations, this work will catalyze industry adoption and establish foundational knowledge for next-generation research and applications."
  { title := title, content := content }

/-! ### Agent functions, variant 2 (generateSummary / identifyResearchGaps /
generateProposal) -/

/-- One block of the `papers.slice(0, 5).forEach` loop of `generateSummary`. -/
def summaryPaperBlock (ip : Nat × Paper) : String :=
  toString (ip.1 + 1) ++ ". " ++ ip.2.title ++ "\n"
  ++ (if ip.2.authors.length > 0 then
        "   Authors: " ++ String.intercalate ", " (ip.2.authors.take 3)
        ++ (if ip.2.authors.length > 3 then " et al." else "") ++ "\n"
      else "")
  ++ (if ip.2.abstract ≠ "" then
        "   Summary: " ++ strTake ip.2.abstract 200
        ++ (if ip.2.abstract.length > 200 then "..." else "") ++ "\n"
      else "")
  ++ "\n"

/-- `generateSummary(papers, topic)` (lines 576-605). -/
def generateSummary (papers : List Paper) (topic : String) : String :=
  if papers.length == 0 then
    "No papers were found for the research topic: \"" ++ topic ++
      "\". Consider refining your search query or trying different keywords."
  else
    "Research Summary for: \"" ++ topic ++ "\"\n\n"
    ++ "Overview:\n"
    ++ "This analysis is based on " ++ toString papers.length ++ " academic papers from arXiv. "
    ++ "The research explores various aspects of " ++ topic.toLower ++ ".\n\n"
    ++ "Key Findings:\n\n"
    ++ (papers.take 5).enum.foldl (fun acc ip => acc ++ summaryPaperBlock ip) ""
    ++ "\nConclusion:\n"
    ++ "The literature on " ++ topic.toLower ++ " demonstrates active research with "
    ++ toString papers.length ++ " relevant publications found. "
    ++ "The field shows promising developments and various approaches to addressing related challenges."

/-- `identifyResearchGaps(papers, topic)` (lines 607-632): a hardcoded list
of five gap templates. -/
def identifyResearchGaps (papers : List Paper) (topic : String) : List Gap :=
  [ { description := "Limited cross-domain applications: While current research on " ++
        topic.toLower ++ " shows progress, there appears to be limited exploration of applications across different domains and industries."
      priority := "high" },
    { description := "Scalability challenges: Many existing approaches may not adequately address scalability concerns for real-world, large-scale implementations."
      priority := "high" },
    { description := "Reproducibility and standardization: There's a need for more standardized benchmarks and reproducible methodologies in " ++
        topic.toLower ++ " research."
      priority := "medium" },
    { description := "Practical implementation barriers: The gap between theoretical research and practical implementation needs more attention, including considerations of cost, resources, and deployment challenges."
      priority := "medium" },
    { description := "Long-term impact studies: More longitudinal studies are needed to understand the long-term effects and sustainability of proposed solutions in " ++
        topic.toLower ++ "."
      priority := "low" } ]

/-- One line of the `papers.slice(0, 3).forEach` loop of `generateProposal`. -/
def proposalPaperLine (ip : Nat × Paper) : String :=
  toString (ip.1 + 1) ++ ". " ++ ip.2.title ++ "\n"

/-- One block of the `gaps.forEach` loop of `generateProposal`. -/
def proposalGapBlock (ig : Nat × Gap) : String :=
  toString (ig.1 + 1) ++ ". **" ++ ig.2.priority.toUpper ++ " PRIORITY:** "
  ++ ig.2.description ++ "\n\n"

/-- `generateProposal(topic, papers, gaps)` (lines 634-690).  Literals are
split at section-header boundaries. -/
def generateProposal (topic : String) (papers : List Paper) (gaps : List Gap) : Proposal :=
  let title := "Research Proposal: Advancing " ++ topic
  let content :=
    "# " ++ title ++ "\n\n"
    ++ "## 1. Introduction\n\n"
    ++ "This research proposal aims to advance the field of " ++ topic.toLower
    ++ " by addressing key gaps identified in current literature. "
    ++ "Based on an analysis of " ++ toString papers.length
    ++ " recent publications, this study will focus on developing novel approaches that bridge theoretical research with practical applications.\n\n"
    ++ "## 2. Research Objectives" ++ "\n\n"
    ++ "The primary objectives of this research are:\n\n"
    ++ "- To develop innovative solutions that address scalability challenges in "
    ++ topic.toLower ++ "\n"
    ++ "- To create standardized benchmarks for evaluating approaches in this domain\n"
    ++ "- To demonstrate practical applications across multiple industries\n"
    ++ "- To conduct comprehensive evaluations of long-term impact and sustainability\n\n"
    ++ "## 3. Literature Review\n\n"
    ++ "Current research in " ++ topic.toLower ++ " has made significant strides, with "
    ++ toString papers.length ++ " relevant papers identified. "
    ++ "Key areas of focus include:\n\n"
    ++ (papers.take 3).enum.foldl (fun acc ip => acc ++ proposalPaperLine ip) ""
    ++ "\n" ++ "## 4. Identified Research Gaps" ++ "\n\n"
    ++ "Through systematic analysis, several critical gaps have been identified:\n\n"
    ++ gaps.enum.foldl (fun acc ig => acc ++ proposalGapBlock ig) ""
    ++ "## 5. Proposed Methodology" ++ "\n\n"
    ++ "This research will employ a mixed-methods approach:\n\n"
    ++ "- **Phase 1 (Months 1-3):** Comprehensive literature review and gap analysis\n"
    ++ "- **Phase 2 (Months 4-8):** Development of novel approaches and frameworks\n"
    ++ "- **Phase 3 (Months 9-12):** Implementation and empirical evaluation\n"
    ++ "- **Phase 4 (Months 13-15):** Analysis, refinement, and documentation\n\n"
    ++ "## 6. Expected Contributions" ++ "\n\n"
    ++ "This research will contribute to the field by:\n\n"
    ++ "- Providing novel theoretical frameworks for " ++ topic.toLower ++ "\n"
    ++ "- Developing practical tools and methodologies for real-world applications\n"
    ++ "- Establishing standardized evaluation benchmarks\n"
    ++ "- Demonstrating scalability and long-term viability\n\n"
    ++ "## 7. Timeline and Milestones" ++ "\n\n"
    ++ "- **Month 3:** Complete literature review and finalize research design\n"
    ++ "- **Month 8:** Complete development of proposed solutions\n"
    ++ "- **Month 12:** Finish implementation and initial evaluations\n"
    ++ "- **Month 15:** Submit findings for publication and present at conferences\n\n"
    ++ "## 8. Conclusion\n\n"
    ++ "This research proposal addresses critical gaps in " ++ topic.toLower
    ++ " and offers a comprehensive plan to advance the field. "
    ++ "By bridging theoretical research with practical implementation, this work will provide valuable contributions to both academia and industry."
  { title := title, content := content }

/-! ### The pipeline orchestrator as a trace of persistence effects -/

inductive Status where
  | pending
  | searching
  | analyzing
  | refining
  | completed
  | failed
deriving DecidableEq, Repr

/-- One persistence effect of a pipeline run: a topic-status update or a row
insert into one of the four dependent tables. -/
inductive Event where
  | statusWrite (s : Status)
  | insertPaper (p : Paper)
  | insertSummary (content : String)
  | insertGap (description priority : String)
  | insertProposal (title content : String)
deriving DecidableEq, Repr

def isInsertPaper : Event → Bool
  | Event.insertPaper _ => true
  | _ => false

def isInsertSummary : Event → Bool
  | Event.insertSummary _ => true
  | _ => false

def isInsertGap : Event → Bool
  | Event.insertGap _ _ => true
  | _ => false

def isInsertProposal : Event → Bool
  | Event.insertProposal _ _ => true
  | _ => false

/-- The topic-status values written by a trace, in order. -/
def statusWrites (tr : List Event) : List Status :=
  tr.filterMap fun e =>
    match e with
    | Event.statusWrite s => some s
    | _ => none

/-- The prefix of a trace strictly before the (first) write of status `s`. -/
def eventsBefore (tr : List Event) (s : Status) : List Event :=
  tr.takeWhile fun e => !(decide (e = Event.statusWrite s))

/-- Persistence trace of a successful run of the first handler variant
(lines 69-111), given the list of papers produced by the search stage:
searching → insert papers → analyzing → insert summary → insert gaps →
refining → insert proposal → completed. -/
def runPipeline1 (topic : String) (papers : List Paper) : List Event :=
  let summary := reviewerAgent papers topic
  let gaps := proposalAgent papers topic
  let proposal := criticAgent topic papers gaps summary
  [Event.statusWrite Status.searching]
  ++ papers.map Event.insertPaper
  ++ [Event.statusWrite Status.analyzing, Event.insertSummary summary]
  ++ gaps.map (fun g => Event.insertGap g.description g.priority)
  ++ [Event.statusWrite Status.refining,
      Event.insertProposal proposal.title proposal.content,
      Event.statusWrite Status.completed]

/-- Persistence trace of a successful run of the second handler variant
(lines 449-498).  It never writes a `refining` status: the gap and proposal
inserts happen between the `analyzing` and `completed` writes. -/
def runPipeline2 (topic : String) (papers : List Paper) : List Event :=
  let summary := generateSummary papers topic
  let gaps := identifyResearchGaps papers topic
  let proposal := generateProposal topic papers gaps
  [Event.statusWrite Status.searching]
  ++ papers.map Event.insertPaper
  ++ [Event.statusWrite Status.analyzing, Event.insertSummary summary]
  ++ gaps.map (fun g => Event.insertGap g.description g.priority)
  ++ [Event.insertProposal proposal.title proposal.content,
      Event.statusWrite Status.completed]

/-- A full successful lifecycle of a topic under variant 1: the frontend
form inserts the topic with status `pending` (ResearchTopicForm.tsx),
then the edge function runs. -/
def fullRun1 (topic : String) (papers : List Paper) : List Event :=
  Event.statusWrite Status.pending :: runPipeline1 topic papers

/-- A full successful lifecycle of a topic under variant 2. -/
def fullRun2 (topic : String) (papers : List Paper) : List Event :=
  Event.statusWrite Status.pending :: runPipeline2 topic papers

/-! ### The HTTP trigger endpoint -/

/-- `corsHeaders` (lines 4-8). -/
def corsHeaders : List (String × String) :=
  [("Access-Control-Allow-Origin", "*"),
   ("Access-Control-Allow-Methods", "GET, POST, PUT, DELETE, OPTIONS"),
   ("Access-Control-Allow-Headers", "Content-Type, Authorization, X-Client-Info, Apikey")]

/-- `{ ...corsHeaders, "Content-Type": "application/json" }`. -/
def jsonHeaders : List (String × String) :=
  corsHeaders ++ [("Content-Type", "application/json")]

/-- The JSON bodies the handler can produce. -/
inductive RespBody where
  | empty
  | errorJson (msg : String)
  | successJson (papersFound : Nat)
deriving DecidableEq, Repr

structure HttpResponse where
  status : Nat
  headers : List (String × String)
  body : RespBody
deriving DecidableEq, Repr

/-- The `Deno.serve` handler (lines 19-131), modelled over its environment:
`method` is the request method; `reqBody` is the outcome of `req.json()`
(`Except.error` when parsing throws, `Except.ok none` when the parsed body
has no truthy `topicId`, `Except.ok (some id)` otherwise); `lookupTopic`
is the `research_topics` select-by-id (`none` covers both a query error and
a missing row); `searchResult` is the paper list the search stage produces;
`fault` injects an exception thrown by any later stage inside the `try`
block (`some msg` reaches the outer catch).  Both handler variants have
identical request/response logic. -/
def handleRequest (method : String) (reqBody : Except String (Option String))
    (lookupTopic : String → Option String) (searchResult : List Paper)
    (fault : Option String) : HttpResponse :=
  if method == "OPTIONS" then
    { status := 200, headers := corsHeaders, body := RespBody.empty }
  else
    match reqBody with
    | Except.error e =>
      { status := 500, headers := jsonHeaders, body := RespBody.errorJson e }
    | Except.ok none =>
      { status := 400, headers := jsonHeaders,
        body := RespBody.errorJson "Topic ID is required" }
    | Except.ok (some topicId) =>
      match lookupTopic topicId with
      | none =>
        { status := 404, headers := jsonHeaders,
          body := RespBody.errorJson "Topic not found" }
      | some _ =>
        match fault with
        | some msg =>
          { status := 500, headers := jsonHeaders, body := RespBody.errorJson msg }
        | none =>
          { status := 200, headers := jsonHeaders,
            body := RespBody.successJson searchResult.length }

/-! ### Relevance Filter (spec §4.2) -/

def toLowerChars (s : Chars) : Chars := s.map Char.toLower

/-- Case-insensitive substring test. -/
def containsSubCI (hay needle : String) : Bool :=
  (splitFirst (toLowerChars needle.data) (toLowerChars hay.data)).isSome

/-- Modelled from the spec: no Relevance Filter exists under `src/` (the
handlers pass the search results through unfiltered), so §4.2's tokenizer
is modelled from the spec's words: "Splits topic into whitespace-delimited
tokens of length > 2". -/
def topicTokens (topic : String) : List String :=
  (topic.split Char.isWhitespace).filter fun t => t.length > 2

/-- Modelled from the spec: §4.2's per-paper score, "+10 per token found in
title (case-insensitive substring), +5 per token found in abstract, +3 per
token found in either (computed as a secondary bonus over the count of
distinct matching tokens), +15 if the paper's domain hint shares a prefix
with the detected domain" (the domain test is abstracted as a Boolean). -/
def relevanceScore (tokens : List String) (domainHit : Bool) (p : Paper) : Nat :=
  10 * tokens.countP (fun t => containsSubCI p.title t)
  + 5 * tokens.countP (fun t => containsSubCI p.abstract t)
  + 3 * tokens.countP (fun t => containsSubCI p.title t || containsSubCI p.abstract t)
  + (if domainHit then 15 else 0)

/-- Modelled from the spec: §4.2's filter, "Retains only papers scoring
> 5, sorts descending by score (stable tie-break = original order),
truncates to top 12". -/
def relevanceFilter (papers : List Paper) (topic : String)
    (domainHit : Paper → Bool) : List Paper :=
  ((papers.filter fun p => 5 < relevanceScore (topicTokens topic) (domainHit p) p).mergeSort
    (fun a b =>
      decide (relevanceScore (topicTokens topic) (domainHit b) b ≤
        relevanceScore (topicTokens topic) (domainHit a) a))).take 12

/-! ### Helper lemmas about traces -/

theorem takeWhile_append_all {α : Type} {p : α → Bool} :
    ∀ {l₁ l₂ : List α}, (∀ a ∈ l₁, p a = true) →
      (l₁ ++ l₂).takeWhile p = l₁ ++ l₂.takeWhile p
  | [], _, _ => rfl
  | a :: l₁, l₂, h => by
    have ha : p a = true := h a (List.mem_cons_self a l₁)
    simp only [List.cons_append, List.takeWhile_cons, ha, if_true]
    rw [takeWhile_append_all fun x hx => h x (List.mem_cons_of_mem a hx)]

theorem countP_map_paperEvents (l : List Paper) :
    (l.map Event.insertPaper).countP isInsertPaper = l.length := by
  induction l with
  | nil => rfl
  | cons p l ih => simp [List.countP_cons, isInsertPaper, ih]

theorem countP_map_paperEvents_other (l : List Paper) (f : Event → Bool)
    (hf : ∀ p, f (Event.insertPaper p) = false) :
    (l.map Event.insertPaper).countP f = 0 := by
  induction l with
  | nil => rfl
  | cons p l ih => simp [List.countP_cons, hf, ih]

theorem countP_map_gapEvents (l : List Gap) :
    (l.map fun g => Event.insertGap g.description g.priority).countP isInsertGap
      = l.length := by
  induction l with
  | nil => rfl
  | cons g l ih => simp [List.countP_cons, isInsertGap, ih]

theorem countP_map_gapEvents_other (l : List Gap) (f : Event → Bool)
    (hf : ∀ d pr, f (Event.insertGap d pr) = false) :
    (l.map fun g => Event.insertGap g.description g.priority).countP f = 0 := by
  induction l with
  | nil => rfl
  | cons g l ih => simp [List.countP_cons, hf, ih]

theorem statusWrites_map_paperEvents (l : List Paper) :
    statusWrites (l.map Event.insertPaper) = [] := by
  induction l with
  | nil => rfl
  | cons p l ih => simp [statusWrites, List.filterMap_cons, ih]

theorem statusWrites_map_gapEvents (l : List Gap) :
    statusWrites (l.map fun g => Event.insertGap g.description g.priority) = [] := by
  induction l with
  | nil => rfl
  | cons g l ih => simp [statusWrites, List.filterMap_cons, ih]

/-! ### Claims -/

/-- Claim C1, counterexample: the second variant's gap identifier
(`identifyResearchGaps`) returns 5 gaps, not 7, so the claim as stated is
false for the cited `identifyResearchGaps` symbol. -/
theorem C1_counterexample :
    ¬ ((identifyResearchGaps [] "ai").length = 7
      ∧ (identifyResearchGaps [] "ai").map Gap.priority
          = ["high", "high", "high", "medium", "medium", "medium", "low"]) := by
  decide

/-- Claim C1, amended: for every papers list and topic, `proposalAgent`
(first variant) returns exactly 7 gaps with priorities
high, high, high, medium, medium, medium, low in order, while
`identifyResearchGaps` (second variant) returns exactly 5 gaps with
priorities high, high, medium, medium, low in order. -/
theorem C1_gap_priorities (papers : List Paper) (topic : String) :
    (proposalAgent papers topic).length = 7
    ∧ (proposalAgent papers topic).map Gap.priority
        = ["high", "high", "high", "medium", "medium", "medium", "low"]
    ∧ (identifyResearchGaps papers topic).length = 5
    ∧ (identifyResearchGaps papers topic).map Gap.priority
        = ["high", "high", "medium", "medium", "low"] :=
  ⟨rfl, rfl, rfl, rfl⟩

/-- Claim C4: on an empty papers list both summary composers return exactly
the literal not-found sentence embedding the topic string, and nothing
else. -/
theorem C4_empty_summary (topic : String) :
    reviewerAgent [] topic
      = "No papers were found for the research topic: \"" ++ topic ++
          "\". Consider refining your search query or trying different keywords."
    ∧ generateSummary [] topic
      = "No papers were found for the research topic: \"" ++ topic ++
          "\". Consider refining your search query or trying different keywords." :=
  ⟨rfl, rfl⟩

/-- Claim C5: when the search fetch (or the read of its response body)
fails, both search clients return the empty list; no exception reaches the
caller (the functions are total) and there is no retry (a single fetch
outcome fully determines the result). -/
theorem C5_search_failure_empty (msg : String) :
    searchAgent (Except.error msg) = [] ∧ searchPapers (Except.error msg) = [] :=
  ⟨rfl, rfl⟩

/-- Claim C3: the trigger endpoint answers OPTIONS with 200 and the
permissive CORS headers; 400 when the parsed body has no topicId; 404 when
the topic does not resolve; 200 with success and the found-paper count on
completion; 500 with the error message on an unhandled exception (either a
body-parse failure or a fault inside the pipeline). -/
theorem C3_handler_responses (method : String)
    (reqBody : Except String (Option String))
    (lookupTopic : String → Option String) (searchResult : List Paper)
    (fault : Option String) :
    (method = "OPTIONS" →
      handleRequest method reqBody lookupTopic searchResult fault
        = { status := 200, headers := corsHeaders, body := RespBody.empty })
    ∧ (method ≠ "OPTIONS" → reqBody = Except.ok none →
      handleRequest method reqBody lookupTopic searchResult fault
        = { status := 400, headers := jsonHeaders,
            body := RespBody.errorJson "Topic ID is required" })
    ∧ (∀ tid, method ≠ "OPTIONS" → reqBody = Except.ok (some tid) →
      lookupTopic tid = none →
      handleRequest method reqBody lookupTopic searchResult fault
        = { status := 404, headers := jsonHeaders,
            body := RespBody.errorJson "Topic not found" })
    ∧ (∀ tid topicText, method ≠ "OPTIONS" → reqBody = Except.ok (some tid) →
      lookupTopic tid = some topicText → fault = none →
      handleRequest method reqBody lookupTopic searchResult fault
        = { status := 200, headers := jsonHeaders,
            body := RespBody.successJson searchResult.length })
    ∧ (∀ msg, method ≠ "OPTIONS" → reqBody = Except.error msg →
      handleRequest method reqBody lookupTopic searchResult fault
        = { status := 500, headers := jsonHeaders, body := RespBody.errorJson msg })
    ∧ (∀ tid topicText msg, method ≠ "OPTIONS" → reqBody = Except.ok (some tid) →
      lookupTopic tid = some topicText → fault = some msg →
      handleRequest method reqBody lookupTopic searchResult fault
        = { status := 500, headers := jsonHeaders, body := RespBody.errorJson msg })
    ∧ ("Access-Control-Allow-Origin", "*") ∈ corsHeaders := by
  refine ⟨?_, ?_, ?_, ?_, ?_, ?_, ?_⟩
  · intro h
    subst h
    rfl
  · intro hm hb
    subst hb
    simp [handleRequest, hm]
  · intro tid hm hb hl
    subst hb
    simp [handleRequest, hm, hl]
  · intro tid topicText hm hb hl hf
    subst hb hf
    simp [handleRequest, hm, hl]
  · intro msg hm hb
    subst hb
    simp [handleRequest, hm]
  · intro tid topicText msg hm hb hl hf
    subst hb hf
    simp [handleRequest, hm, hl]
  · simp [corsHeaders]

/-- Witness for C3 at concrete inputs. -/
theorem C3_handler_responses_witness :
    handleRequest "OPTIONS" (Except.ok none) (fun _ => none) [] none
      = { status := 200, headers := corsHeaders, body := RespBody.empty }
    ∧ handleRequest "POST" (Except.ok none) (fun _ => none) [] none
      = { status := 400, headers := jsonHeaders,
          body := RespBody.errorJson "Topic ID is required" }
    ∧ handleRequest "POST" (Except.ok (some "t1")) (fun _ => none) [] none
      = { status := 404, headers := jsonHeaders,
          body := RespBody.errorJson "Topic not found" }
    ∧ handleRequest "POST" (Except.ok (some "t1")) (fun _ => some "ai") [] none
      = { status := 200, headers := jsonHeaders, body := RespBody.successJson 0 }
    ∧ handleRequest "POST" (Except.error "boom") (fun _ => none) [] none
      = { status := 500, headers := jsonHeaders, body := RespBody.errorJson "boom" }
    ∧ handleRequest "POST" (Except.ok (some "t1")) (fun _ => some "ai") []
        (some "db down")
      = { status := 500, headers := jsonHeaders, body := RespBody.errorJson "db down" } :=
  ⟨(C3_handler_responses "OPTIONS" (Except.ok none) (fun _ => none) [] none).1 rfl,
   (C3_handler_responses "POST" (Except.ok none) (fun _ => none) [] none).2.1
     (by decide) rfl,
   (C3_handler_responses "POST" (Except.ok (some "t1")) (fun _ => none) [] none).2.2.1
     "t1" (by decide) rfl rfl,
   (C3_handler_responses "POST" (Except.ok (some "t1")) (fun _ => some "ai") []
     none).2.2.2.1 "t1" "ai" (by decide) rfl rfl rfl,
   (C3_handler_responses "POST" (Except.error "boom") (fun _ => none) [] none).2.2.2.2.1
     "boom" (by decide) rfl,
   (C3_handler_responses "POST" (Except.ok (some "t1")) (fun _ => some "ai") []
     (some "db down")).2.2.2.2.2.1 "t1" "ai" "db down" (by decide) rfl rfl rfl⟩

/-- Claim C7: with zero papers from the search stage, every downstream
stage is a total function and the successful trace of either variant
persists zero paper rows, one summary row, the variant's full fixed gap
set (7 for variant 1, 5 for variant 2), one proposal row, and finishes
with the `completed` status write. -/
theorem C7_zero_papers (topic : String) :
    (runPipeline1 topic []).countP isInsertPaper = 0
    ∧ (runPipeline1 topic []).countP isInsertSummary = 1
    ∧ (runPipeline1 topic []).countP isInsertGap = 7
    ∧ (runPipeline1 topic []).countP isInsertProposal = 1
    ∧ (statusWrites (runPipeline1 topic [])).getLast? = some Status.completed
    ∧ (runPipeline2 topic []).countP isInsertPaper = 0
    ∧ (runPipeline2 topic []).countP isInsertSummary = 1
    ∧ (runPipeline2 topic []).countP isInsertGap = 5
    ∧ (runPipeline2 topic []).countP isInsertProposal = 1
    ∧ (statusWrites (runPipeline2 topic [])).getLast? = some Status.completed := by
  refine ⟨?_, ?_, ?_, ?_, ?_, ?_, ?_, ?_, ?_, ?_⟩ <;>
    simp [runPipeline1, runPipeline2, proposalAgent, identifyResearchGaps,
      statusWrites, List.countP_cons, List.filterMap_cons,
      isInsertPaper, isInsertSummary, isInsertGap, isInsertProposal]

theorem takeWhile_paperMap (ps : List Paper) (tr : List Event) (s : Status) :
    (ps.map Event.insertPaper ++ tr).takeWhile
        (fun e => !(decide (e = Event.statusWrite s)))
      = ps.map Event.insertPaper
        ++ tr.takeWhile (fun e => !(decide (e = Event.statusWrite s))) := by
  apply takeWhile_append_all
  intro a ha
  obtain ⟨p, hp, rfl⟩ := List.mem_map.mp ha
  simp

theorem takeWhile_gapMap (gs : List Gap) (tr : List Event) (s : Status) :
    ((gs.map fun g => Event.insertGap g.description g.priority) ++ tr).takeWhile
        (fun e => !(decide (e = Event.statusWrite s)))
      = (gs.map fun g => Event.insertGap g.description g.priority)
        ++ tr.takeWhile (fun e => !(decide (e = Event.statusWrite s))) := by
  apply takeWhile_append_all
  intro a ha
  obtain ⟨g, hg, rfl⟩ := List.mem_map.mp ha
  simp

/-- Claim C2, counterexample: the second handler variant never writes the
`refining` status, so a successful run of it does not produce the claimed
status sequence. -/
theorem C2_counterexample :
    statusWrites (fullRun2 "quantum computing" [])
      ≠ [Status.pending, Status.searching, Status.analyzing, Status.refining,
         Status.completed] := by
  decide

/-- Claim C2, amended: in every successful run, variant 1 writes the topic
status in exactly the order pending → searching → analyzing → refining →
completed, each write occurring only after the preceding stage's rows are
in the trace (all paper inserts precede the analyzing write; the summary
insert and all 7 gap inserts precede the refining write; the proposal
insert precedes the completed write).  Variant 2 omits the refining write:
its order is pending → searching → analyzing → completed, with the
summary, gap and proposal inserts between the analyzing and completed
writes. -/
theorem C2_status_order (topic : String) (papers : List Paper) :
    statusWrites (fullRun1 topic papers)
      = [Status.pending, Status.searching, Status.analyzing, Status.refining,
         Status.completed]
    ∧ (eventsBefore (fullRun1 topic papers) Status.analyzing).countP isInsertPaper
        = papers.length
    ∧ (fullRun1 topic papers).countP isInsertPaper = papers.length
    ∧ (eventsBefore (fullRun1 topic papers) Status.refining).countP isInsertSummary = 1
    ∧ (fullRun1 topic papers).countP isInsertSummary = 1
    ∧ (eventsBefore (fullRun1 topic papers) Status.refining).countP isInsertGap = 7
    ∧ (fullRun1 topic papers).countP isInsertGap = 7
    ∧ (eventsBefore (fullRun1 topic papers) Status.completed).countP isInsertProposal = 1
    ∧ (fullRun1 topic papers).countP isInsertProposal = 1
    ∧ statusWrites (fullRun2 topic papers)
      = [Status.pending, Status.searching, Status.analyzing, Status.completed]
    ∧ (eventsBefore (fullRun2 topic papers) Status.analyzing).countP isInsertPaper
        = papers.length
    ∧ (fullRun2 topic papers).countP isInsertPaper = papers.length
    ∧ (eventsBefore (fullRun2 topic papers) Status.completed).countP isInsertSummary = 1
    ∧ (eventsBefore (fullRun2 topic papers) Status.completed).countP isInsertGap = 5
    ∧ (eventsBefore (fullRun2 topic papers) Status.completed).countP isInsertProposal
        = 1 := by
  refine ⟨?_, ?_, ?_, ?_, ?_, ?_, ?_, ?_, ?_, ?_, ?_, ?_, ?_, ?_, ?_⟩ <;>
    simp [fullRun1, fullRun2, runPipeline1, runPipeline2, proposalAgent,
      identifyResearchGaps, statusWrites, eventsBefore, List.takeWhile_cons,
      takeWhile_paperMap, takeWhile_gapMap, List.countP_append, List.countP_cons,
      List.countP_map, List.filterMap_append, List.filterMap_cons, List.filterMap_map,
      Function.comp, isInsertPaper, isInsertSummary, isInsertGap, isInsertProposal,
      List.append_assoc]

/-- Claim C9 (spec-modelled Relevance Filter): the output has at most 12
papers, every returned paper scores strictly above 5, and scores are
non-increasing along the output order. -/
theorem C9_relevance_filter (papers : List Paper) (topic : String)
    (domainHit : Paper → Bool) :
    (relevanceFilter papers topic domainHit).length ≤ 12
    ∧ (∀ p ∈ relevanceFilter papers topic domainHit,
        5 < relevanceScore (topicTokens topic) (domainHit p) p)
    ∧ (relevanceFilter papers topic domainHit).Pairwise (fun a b =>
        relevanceScore (topicTokens topic) (domainHit b) b ≤
          relevanceScore (topicTokens topic) (domainHit a) a) := by
  have hdef : relevanceFilter papers topic domainHit
      = ((papers.filter fun p =>
            decide (5 < relevanceScore (topicTokens topic) (domainHit p) p)).mergeSort
          (fun a b =>
            decide (relevanceScore (topicTokens topic) (domainHit b) b ≤
              relevanceScore (topicTokens topic) (domainHit a) a))).take 12 := rfl
  refine ⟨?_, ?_, ?_⟩
  · rw [hdef, List.length_take]
    exact Nat.min_le_left _ _
  · intro p hp
    rw [hdef] at hp
    have h1 := List.mem_of_mem_take hp
    rw [List.mem_mergeSort] at h1
    have h2 := List.mem_filter.mp h1
    exact of_decide_eq_true h2.2
  · rw [hdef]
    apply List.Pairwise.sublist (List.take_sublist _ _)
    have hs := @List.sorted_mergeSort Paper
      (fun a b =>
        decide (relevanceScore (topicTokens topic) (domainHit b) b ≤
          relevanceScore (topicTokens topic) (domainHit a) a))
      (by
        intro a b c hab hbc
        simp only [decide_eq_true_eq] at hab hbc ⊢
        omega)
      (by
        intro a b
        simp only [Bool.or_eq_true, decide_eq_true_eq]
        exact Nat.le_total _ _)
      (papers.filter fun p =>
        decide (5 < relevanceScore (topicTokens topic) (domainHit p) p))
    exact hs.imp fun h => of_decide_eq_true h

theorem parseLoop_eq_filterMap : ∀ s : Chars,
    parseLoop s = (extractEntries s).filterMap entryToPaper := by
  intro s
  induction s using parseLoop.induct with
  | case1 x h1 =>
    rw [parseLoop, extractEntries]
    split
    · simp
    · simp_all
  | case2 x mid rest h1 h2 =>
    rw [parseLoop, extractEntries]
    split
    · simp_all
    · split
      · simp
      · simp_all
  | case3 x mid rest h1 entry rest2 h2 hnone ih =>
    rw [parseLoop, extractEntries]
    split
    · simp_all
    · split
      · simp_all
      · simp_all [List.filterMap_cons]
  | case4 x mid rest h1 entry rest2 h2 p hsome ih =>
    rw [parseLoop, extractEntries]
    split
    · simp_all
    · split
      · simp_all
      · simp_all [List.filterMap_cons]

theorem entryToPaper_eq_none_iff (e : Chars) :
    entryToPaper e = none
      ↔ between ("<title>".data) ("</title>".data) e = none := by
  simp only [entryToPaper]
  cases h : between ("<title>".data) ("</title>".data) e <;> simp [h]

theorem entryToPaper_of_title {e t : Chars}
    (h : between ("<title>".data) ("</title>".data) e = some t) :
    entryToPaper e = some
      { title := strOf (replaceNewlines (trimChars t))
        abstract :=
          match between ("<summary>".data) ("</summary>".data) e with
          | some sm => strOf (replaceNewlines (trimChars sm))
          | none => ""
        authors := (extractAuthors e).map strOf
        url :=
          match findLink e with
          | some u => strOf u
          | none => ""
        published_date :=
          match between ("<published>".data) ("</published>".data) e with
          | some d => strOf (d.takeWhile fun c => c != 'T')
          | none => ""
        source := "arXiv" } := by
  simp only [entryToPaper]
  rw [h]

/-- Claim C10: `parseArxivXML` emits one record per captured entry block
with a title match and skips title-less blocks; in each record a missing
summary, pdf link or published tag yields the empty string, the published
date is the text before the first `T`, title and abstract are trimmed with
newlines replaced by spaces, and the source is always the literal
`"arXiv"`.  The function is total by construction. -/
theorem C10_parse_spec (xml : String) :
    parseArxivXML xml = (extractEntries xml.data).filterMap entryToPaper
    ∧ (∀ e : Chars, (entryToPaper e).isSome
        ↔ (between ("<title>".data) ("</title>".data) e).isSome)
    ∧ (∀ p ∈ parseArxivXML xml, p.source = "arXiv")
    ∧ (∀ (e : Chars) (p : Paper), entryToPaper e = some p →
        (∀ t, between ("<title>".data) ("</title>".data) e = some t →
          p.title = strOf (replaceNewlines (trimChars t)))
        ∧ (between ("<summary>".data) ("</summary>".data) e = none →
            p.abstract = "")
        ∧ (∀ sm, between ("<summary>".data) ("</summary>".data) e = some sm →
            p.abstract = strOf (replaceNewlines (trimChars sm)))
        ∧ (findLink e = none → p.url = "")
        ∧ (∀ u, findLink e = some u → p.url = strOf u)
        ∧ (between ("<published>".data) ("</published>".data) e = none →
            p.published_date = "")
        ∧ (∀ d, between ("<published>".data) ("</published>".data) e = some d →
            p.published_date = strOf (d.takeWhile fun c => c != 'T'))
        ∧ p.authors = (extractAuthors e).map strOf
        ∧ p.source = "arXiv") := by
  refine ⟨parseLoop_eq_filterMap xml.data, ?_, ?_, ?_⟩
  · intro e
    simp only [entryToPaper]
    cases h : between ("<title>".data) ("</title>".data) e <;> simp [h]
  · intro p hp
    rw [parseArxivXML, parseLoop_eq_filterMap] at hp
    obtain ⟨e, _, he⟩ := List.mem_filterMap.mp hp
    cases h : between ("<title>".data) ("</title>".data) e with
    | none =>
      rw [(entryToPaper_eq_none_iff e).mpr h] at he
      exact absurd he (by simp)
    | some t =>
      rw [entryToPaper_of_title h] at he
      obtain rfl := Option.some.inj he
      rfl
  · intro e p hp
    cases h : between ("<title>".data) ("</title>".data) e with
    | none =>
      rw [(entryToPaper_eq_none_iff e).mpr h] at hp
      exact absurd hp (by simp)
    | some t0 =>
      rw [entryToPaper_of_title h] at hp
      obtain rfl := Option.some.inj hp
      refine ⟨?_, ?_, ?_, ?_, ?_, ?_, ?_, rfl, rfl⟩
      · intro t ht
        obtain rfl : t0 = t := Option.some.inj ht
        rfl
      · intro hsm
        simp [hsm]
      · intro sm hsm
        simp [hsm]
      · intro hl
        simp [hl]
      · intro u hl
        simp [hl]
      · intro hd
        simp [hd]
      · intro d hd
        simp [hd]

/-- A concrete response with two identically-titled entries. -/
def dupXml : String :=
  "<entry><title>A</title></entry><entry><title>A</title></entry>"

theorem extractEntries_cons (s b r1 mid r2 : Chars)
    (h1 : splitFirst ("<entry>".data) s = some (b, r1))
    (h2 : splitFirst ("</entry>".data) r1 = some (mid, r2)) :
    extractEntries s = mid :: extractEntries r2 := by
  rw [extractEntries]
  split
  · simp_all
  · split
    · simp_all
    · simp_all

theorem extractEntries_nil (s : Chars)
    (h1 : splitFirst ("<entry>".data) s = none) : extractEntries s = [] := by
  rw [extractEntries]
  split
  · rfl
  · simp_all

theorem extractAuthors_nil_of (s : Chars)
    (h1 : splitFirst ("<author>".data) s = none) : extractAuthors s = [] := by
  rw [extractAuthors]
  split
  · rfl
  · simp_all

theorem extractAuthors_titleA : extractAuthors ("<title>A</title>".data) = [] :=
  extractAuthors_nil_of _ (by decide)

theorem entryToPaper_titleA :
    entryToPaper ("<title>A</title>".data)
      = some ⟨"A", "", [], "", "", "arXiv"⟩ := by
  rw [entryToPaper, extractAuthors_titleA]
  rfl

theorem extractEntries_dupXml :
    extractEntries dupXml.data
      = [("<title>A</title>").data, ("<title>A</title>").data] := by
  rw [extractEntries_cons dupXml.data []
      (("<title>A</title></entry><entry><title>A</title></entry>").data)
      (("<title>A</title>").data) (("<entry><title>A</title></entry>").data)
      (by decide) (by decide),
    extractEntries_cons (("<entry><title>A</title></entry>").data) []
      (("<title>A</title></entry>").data) (("<title>A</title>").data) ([] : Chars)
      (by decide) (by decide),
    extractEntries_nil ([] : Chars) (by decide)]

theorem parseArxivXML_dupXml :
    parseArxivXML dupXml
      = [⟨"A", "", [], "", "", "arXiv"⟩, ⟨"A", "", [], "", "", "arXiv"⟩] := by
  rw [parseArxivXML, parseLoop_eq_filterMap, extractEntries_dupXml,
    List.filterMap_cons, List.filterMap_cons, List.filterMap_nil, entryToPaper_titleA]

/-- Claim C6, counterexample: `parseArxivXML` does not deduplicate — on a
response with two entries of identical title text, the returned list
contains two papers with the same title. -/
theorem C6_counterexample :
    ¬ ((parseArxivXML dupXml).Pairwise fun p q => p.title ≠ q.title) := by
  rw [parseArxivXML_dupXml]
  decide

/-- Claim C6, amended: the search client performs no deduplication at all;
the returned titles are exactly, in order and with duplicates preserved,
the normalized title captures of the title-bearing entry blocks. -/
theorem C6_no_dedup (xml : String) :
    (parseArxivXML xml).map Paper.title
      = ((extractEntries xml.data).filterMap
          (between ("<title>".data) ("</title>".data))).map
          (fun t => strOf (replaceNewlines (trimChars t))) := by
  rw [parseArxivXML, parseLoop_eq_filterMap]
  induction extractEntries xml.data with
  | nil => rfl
  | cons e es ih =>
    rw [List.filterMap_cons, List.filterMap_cons]
    cases h : between ("<title>".data) ("</title>".data) e with
    | none =>
      rw [(entryToPaper_eq_none_iff e).mpr h]
      exact ih
    | some t =>
      have hsome : entryToPaper e
          = some {
              title := strOf (replaceNewlines (trimChars t))
              abstract :=
                match between ("<summary>".data) ("</summary>".data) e with
                | some sm => strOf (replaceNewlines (trimChars sm))
                | none => ""
              authors := (extractAuthors e).map strOf
              url :=
                match findLink e with
                | some u => strOf u
                | none => ""
              published_date :=
                match between ("<published>".data) ("</published>".data) e with
                | some d => strOf (d.takeWhile fun c => c != 'T')
                | none => ""
              source := "arXiv" } := by
        simp only [entryToPaper]
        rw [h]
      rw [hsome]
      simp only [List.map_cons]
      rw [ih]

/-! ### Substring-occurrence reasoning (for refuting header claims without
evaluating the whole generated document at once) -/

/-- `n` occurs as a contiguous substring of `s`. -/
def Occurs (n s : Chars) : Prop := ∃ x y, s = x ++ n ++ y

theorem occurs_of_splitFirst_some {n s pre post : Chars}
    (h : splitFirst n s = some (pre, post)) : Occurs n s :=
  ⟨pre, post, splitFirst_eq_append h⟩

theorem not_occurs_of_splitFirst_none {n s : Chars}
    (h : splitFirst n s = none) : ¬ Occurs n s := by
  intro hocc
  obtain ⟨x, y, rfl⟩ := hocc
  by_cases hn : n = []
  · subst hn
    have hne : splitFirst ([] : Chars) (x ++ [] ++ y) ≠ none := by
      cases hxy : x ++ [] ++ y with
      | nil => simp [splitFirst]
      | cons c cs => simp [splitFirst, List.isPrefixOf]
    exact hne h
  · obtain ⟨pre, post, hsp, _⟩ := @splitFirst_of_decomp n hn x y
    rw [hsp] at h
    exact Option.noConfusion h

theorem occurs_append_left (n a b : Chars) (h : Occurs n b) : Occurs n (a ++ b) := by
  obtain ⟨x, y, rfl⟩ := h
  exact ⟨a ++ x, y, by simp [List.append_assoc]⟩

theorem occurs_append_right (n a b : Chars) (h : Occurs n a) : Occurs n (a ++ b) := by
  obtain ⟨x, y, hx⟩ := h
  exact ⟨x, y ++ b, by rw [hx]; simp [List.append_assoc]⟩

/-- An occurrence in `a ++ b ++ c` lies inside `a ++ b` or inside `b ++ c`,
provided the middle block is at least one character shorter than the
needle's length bound (so no occurrence can jump over it). -/
theorem occurs_overlap {n a b c : Chars} (hb : n.length ≤ b.length + 1)
    (h : Occurs n (a ++ (b ++ c))) : Occurs n (a ++ b) ∨ Occurs n (b ++ c) := by
  obtain ⟨x, y, hxy⟩ := h
  by_cases hi : x.length + n.length ≤ a.length + b.length
  · left
    have htake := congrArg (List.take (x.length + n.length)) hxy
    have hrhs : (x ++ n ++ y).take (x.length + n.length) = x ++ n := by
      rw [List.append_assoc, List.take_append n.length, List.take_left]
    have hlhs : (a ++ (b ++ c)).take (x.length + n.length)
        = (a ++ b).take (x.length + n.length) := by
      rw [← List.append_assoc]
      exact List.take_append_of_le_length (by simpa using hi)
    have hkey : (a ++ b).take (x.length + n.length) = x ++ n := by
      rw [← hlhs, htake, hrhs]
    refine ⟨x, (a ++ b).drop (x.length + n.length), ?_⟩
    conv_lhs => rw [← List.take_append_drop (x.length + n.length) (a ++ b)]
    rw [hkey, List.append_assoc, ← List.append_assoc]
  · right
    push_neg at hi
    have hax : a.length ≤ x.length := by omega
    have htake := congrArg (List.take a.length) hxy
    have hlhs : (a ++ (b ++ c)).take a.length = a := List.take_left a (b ++ c)
    have hrhs : (x ++ n ++ y).take a.length = x.take a.length := by
      rw [List.append_assoc]
      exact List.take_append_of_le_length hax
    have hxa : x.take a.length = a := by rw [← hrhs, ← htake, hlhs]
    have hx : x = a ++ x.drop a.length := by
      conv_lhs => rw [← List.take_append_drop a.length x]
      rw [hxa]
    rw [hx] at hxy
    have hxy2 : a ++ (b ++ c) = a ++ (x.drop a.length ++ (n ++ y)) := by
      rw [hxy]
      simp [List.append_assoc]
    have hcancel : b ++ c = x.drop a.length ++ (n ++ y) :=
      List.append_cancel_left hxy2
    exact ⟨x.drop a.length, y, by rw [hcancel]; simp [List.append_assoc]⟩

def chainConcat : List Chars → Chars
  | [] => []
  | c :: cs => c ++ chainConcat cs

/-- Absence of a needle propagates through a chunked concatenation when no
adjacent pair of chunks contains it and every chunk (except possibly the
first) is long enough that no occurrence can span three chunks. -/
theorem not_occurs_chain {n : Chars} :
    ∀ (c : Chars) (cs : List Chars),
      ¬ Occurs n c →
      List.Chain (fun a b => ¬ Occurs n (a ++ b)) c cs →
      (∀ d ∈ cs, n.length ≤ d.length + 1) →
      ¬ Occurs n (chainConcat (c :: cs)) := by
  intro c cs
  induction cs generalizing c with
  | nil =>
    intro hc _ _ hocc
    rw [chainConcat, chainConcat, List.append_nil] at hocc
    exact hc hocc
  | cons c2 rest ih =>
    intro hc hchain hlen hocc
    rw [chainConcat, chainConcat] at hocc
    cases List.chain_cons.mp hchain with
    | intro hpair hchain2 =>
      cases occurs_overlap (hlen c2 (List.mem_cons_self c2 rest)) hocc with
      | inl h1 => exact hpair h1
      | inr h2 =>
        have hc2 : ¬ Occurs n c2 := fun hx => hpair (occurs_append_left n c c2 hx)
        have : ¬ Occurs n (chainConcat (c2 :: rest)) :=
          ih c2 hc2 hchain2 (fun d hd => hlen d (List.mem_cons_of_mem c2 hd))
        rw [chainConcat] at this
        exact this h2

/-- A greedy in-order search fails outright when one of the needles occurs
nowhere in the haystack. -/
theorem containsInOrder_eq_false_of_not_occurs {n : Chars} :
    ∀ (ns1 : List Chars) (hay : Chars), ¬ Occurs n hay →
      ∀ ns2, containsInOrder hay (ns1 ++ n :: ns2) = false := by
  intro ns1
  induction ns1 with
  | nil =>
    intro hay hno ns2
    rw [List.nil_append, containsInOrder]
    cases hs : splitFirst n hay with
    | none => rfl
    | some pq => exact absurd (occurs_of_splitFirst_some hs) hno
  | cons m ns1 ih =>
    intro hay hno ns2
    rw [List.cons_append, containsInOrder]
    cases hs : splitFirst n hay with
    | none =>
      cases hm : splitFirst m hay with
      | none => rfl
      | some pq =>
        obtain ⟨pre, post⟩ := pq
        have hpost : ¬ Occurs n post := by
          intro hocc
          have := splitFirst_eq_append hm
          subst this
          exact hno (occurs_append_left n (pre ++ m) post hocc)
        exact ih post hpost ns2
    | some pq => exact absurd (occurs_of_splitFirst_some hs) hno

/-! Chunked form of `(criticAgent "ai" [] [] "").content`, used to show the
absence of a `Background` header without one monolithic evaluation. -/

def bgChunk1 : String :=
  "# "
    ++ "Advanced Research Proposal: Strategic Advancement of "
    ++ "ai"
    ++ "\n\n"
    ++ "## Executive Summary"
    ++ "\n\n"
    ++ "This research initiative proposes a comprehensive study to advance the field of "
    ++ "ai"

def bgChunk2 : String :=
  " through systematic investigation of identified gaps, synthesis of current knowledge, and validation of novel approaches. The proposal integrates insights from "
    ++ toString ([] : List Paper).length

def bgChunk3 : String :=
  " contemporary research papers with strategic focus on bridging theoretical understanding and practical implementation.\n\n"
    ++ "## 1. Research Context & Motivation\n\n"
    ++ "The landscape of "
    ++ "ai"

def bgChunk4 : String :=
  " has evolved significantly with diverse methodological approaches and expanding applications. Despite substantial progress, critical gaps remain in scalability, standardization, and practical implementation. This research directly addresses these challenges through a rigorously designed investigation.\n\n"

def bgChunk5 : String :=
  "## 2. Research Objectives"
    ++ " & Expected Outcomes\n\n"
    ++ "### Primary Objectives:\n\n"
    ++ "1. **Scalability Framework Development**: Design and validate architectures supporting production-scale deployment of "
    ++ "ai"
    ++ " systems with demonstrated performance across 10M+ operations\n"

def bgChunk6 : String :=
  "2. **Standardization Protocol Creation**: Develop comprehensive evaluation benchmarks and reproducibility standards for "
    ++ "ai"
    ++ " research\n"
    ++ "3. **Integration Methodology**: Establish frameworks for cross-domain integration of "
    ++ "ai"
    ++ " across diverse technical environments\n"

def bgChunk7 : String :=
  "4. **Impact Assessment**: Conduct longitudinal analysis of "
    ++ "ai"
    ++ " implementation outcomes across 12-24 month timelines\n\n"
    ++ "## 3. Literature Foundation\n\n"
    ++ "This research builds upon "
    ++ toString ([] : List Paper).length
    ++ " peer-reviewed publications including:\n\n"
    ++ ((([] : List Paper).take 5).enum.foldl (fun acc ip => acc ++ criticPaperLine ip) "")
    ++ "\n"
    ++ "## 4. Critical Gap Analysis"
    ++ "\n\n"

def bgChunk8 : String :=
  "Systematic analysis identified the following research gaps requiring targeted investigation:\n\n"
    ++ (([] : List Gap).enum.foldl (fun acc ig => acc ++ criticGapBlock ig) "")
    ++ "## 5. Methodology"
    ++ " & Research Design\n\n"
    ++ "### Phase 1: Foundational Analysis (Months 1-4)\n"
    ++ "- Comprehensive meta-analysis of "
    ++ toString ([] : List Paper).length
    ++ "+ papers\n"
    ++ "- Development of evaluation frameworks and metrics\n"

def bgChunk9 : String :=
  "- Stakeholder interviews across industry and academia\n\n"
    ++ "### Phase 2: Prototype Development (Months 5-10)\n"
    ++ "- Design and implement novel "
    ++ "ai"
    ++ " architectures\n"
    ++ "- Validate scalability across production-level datasets\n"
    ++ "- Create standardization benchmarks\n\n"

def bgChunk10 : String :=
  "### Phase 3: Empirical Validation (Months 11-16)\n"
    ++ "- Deploy systems in real-world environments\n"
    ++ "- Conduct performance and usability studies\n"
    ++ "- Generate comprehensive documentation and guidelines\n\n"
    ++ "### Phase 4: Synthesis & Dissemination (Months 17-20)\n"

def bgChunk11 : String :=
  "- Consolidate findings and best practices\n"
    ++ "- Publish peer-reviewed research outcomes\n"
    ++ "- Develop open-source implementations and toolkits\n\n"
    ++ "## 6. Expected Contributions"
    ++ " to the Field\n\n"
    ++ "This research will advance "
    ++ "ai"
    ++ " through:\n\n"

def bgChunk12 : String :=
  "- **Theoretical Advancement**: Novel frameworks improving understanding of "
    ++ "ai"
    ++ " principles\n"
    ++ "- **Practical Toolkits**: Production-ready implementations and architectural patterns\n"
    ++ "- **Standardization**: Industry-accepted evaluation metrics and benchmarks\n"

def bgChunk13 : String :=
  "- **Knowledge Dissemination**: Comprehensive documentation enabling practitioner adoption\n\n"
    ++ "## 7. Innovation & Novelty\n\n"
    ++ "The proposed research introduces:\n"
    ++ "- First comprehensive scalability framework for production "
    ++ "ai"
    ++ " systems\n"
    ++ "- Unified standards for "
    ++ "ai"

def bgChunk14 : String :=
  " evaluation across diverse implementations\n"
    ++ "- Guidance for practical integration and deployment strategies\n\n"
    ++ "## 8. Project Timeline"
    ++ " & Milestones\n\n"
    ++ "- **Month 4**: Complete foundational analysis and publish interim findings\n"

def bgChunk15 : String :=
  "- **Month 10**: Prototype systems achieving 5M+ operation scalability\n"
    ++ "- **Month 16**: Real-world validation completion with performance reports\n"
    ++ "- **Month 20**: Final publication suite and open-source release\n\n"
    ++ "## 9. Conclusion\n\n"

def bgChunk16 : String :=
  "This research represents a strategic investment in advancing "
    ++ "ai"

def bgChunk17 : String :=
  " through rigorous investigation of critical gaps and development of practical solutions. By bridging theoretical foundations with production-grade implementations, this work will catalyze industry adoption and establish foundational knowledge for next-generation research and applications."


def bgChunks : List Chars := [bgChunk1.data, bgChunk2.data, bgChunk3.data, bgChunk4.data, bgChunk5.data, bgChunk6.data, bgChunk7.data, bgChunk8.data, bgChunk9.data, bgChunk10.data, bgChunk11.data, bgChunk12.data, bgChunk13.data, bgChunk14.data, bgChunk15.data, bgChunk16.data, bgChunk17.data]

set_option maxRecDepth 16000 in
theorem no_background_in_critic :
    ¬ Occurs ("Background".data) ((criticAgent "ai" [] [] "").content.data) := by
  have hform : (criticAgent "ai" [] [] "").content.data = chainConcat bgChunks := by
    simp only [criticAgent, bgChunks, chainConcat, String.data_append,
      List.append_assoc, List.append_nil,
      bgChunk1, bgChunk2, bgChunk3, bgChunk4, bgChunk5, bgChunk6, bgChunk7,
      bgChunk8, bgChunk9, bgChunk10, bgChunk11, bgChunk12, bgChunk13,
      bgChunk14, bgChunk15, bgChunk16, bgChunk17]
  rw [hform, bgChunks]
  apply not_occurs_chain
  · exact not_occurs_of_splitFirst_none (by decide)
  · exact List.Chain.cons (not_occurs_of_splitFirst_none (by decide))
          (List.Chain.cons (not_occurs_of_splitFirst_none (by decide))
          (List.Chain.cons (not_occurs_of_splitFirst_none (by decide))
          (List.Chain.cons (not_occurs_of_splitFirst_none (by decide))
          (List.Chain.cons (not_occurs_of_splitFirst_none (by decide))
          (List.Chain.cons (not_occurs_of_splitFirst_none (by decide))
          (List.Chain.cons (not_occurs_of_splitFirst_none (by decide))
          (List.Chain.cons (not_occurs_of_splitFirst_none (by decide))
          (List.Chain.cons (not_occurs_of_splitFirst_none (by decide))
          (List.Chain.cons (not_occurs_of_splitFirst_none (by decide))
          (List.Chain.cons (not_occurs_of_splitFirst_none (by decide))
          (List.Chain.cons (not_occurs_of_splitFirst_none (by decide))
          (List.Chain.cons (not_occurs_of_splitFirst_none (by decide))
          (List.Chain.cons (not_occurs_of_splitFirst_none (by decide))
          (List.Chain.cons (not_occurs_of_splitFirst_none (by decide))
          (List.Chain.cons (not_occurs_of_splitFirst_none (by decide))
          (List.Chain.nil))))))))))))))))
  · intro d hd
    fin_cases hd <;> decide

/-- Claim C8, counterexample: at a concrete input, `criticAgent`'s proposal
content does not contain the claimed header set in the claimed order — in
fact the text "Background" occurs nowhere in it. -/
theorem C8_counterexample :
    containsInOrderS (criticAgent "ai" [] [] "").content
      ["Executive Summary", "Background", "Gaps", "Objectives", "Methodology",
       "Contributions", "Timeline"] = false
    ∧ containsSubS (criticAgent "ai" [] [] "").content "Background" = false := by
  have hno := no_background_in_critic
  constructor
  · rw [containsInOrderS]
    simp only [List.map_cons, List.map_nil]
    exact containsInOrder_eq_false_of_not_occurs ["Executive Summary".data] _ hno
      ["Gaps".data, "Objectives".data, "Methodology".data, "Contributions".data,
       "Timeline".data]
  · rw [containsSubS]
    cases hs : splitFirst ("Background".data)
        (criticAgent "ai" [] [] "").content.data with
    | none => rfl
    | some pq => exact absurd (occurs_of_splitFirst_some hs) hno

section

set_option maxHeartbeats 2000000
set_option maxRecDepth 8000

/-- Claim C8, amended: for every topic, papers, gaps and summary, the first
variant's proposal content contains the section headers Executive Summary,
Research Objectives, Critical Gap Analysis, Methodology, Expected
Contributions and Project Timeline, in that stable order (there is no
Background header, and the objectives section precedes the gap section);
the second variant's content contains Research Objectives, Identified
Research Gaps, Proposed Methodology, Expected Contributions and Timeline
and Milestones in that stable order (and no Executive Summary header). -/
theorem C8_section_headers (topic : String) (papers : List Paper)
    (gaps : List Gap) (summary : String) :
    containsInOrderS (criticAgent topic papers gaps summary).content
      ["## Executive Summary", "## 2. Research Objectives",
       "## 4. Critical Gap Analysis", "## 5. Methodology",
       "## 6. Expected Contributions", "## 8. Project Timeline"] = true
    ∧ containsInOrderS (generateProposal topic papers gaps).content
      ["## 2. Research Objectives", "## 4. Identified Research Gaps",
       "## 5. Proposed Methodology", "## 6. Expected Contributions",
       "## 7. Timeline and Milestones"] = true := by
  constructor
  · simp only [containsInOrderS, criticAgent, String.data_append, List.append_assoc,
      List.map_cons, List.map_nil]
    repeat
      first
      | apply containsInOrder_hit _ (by decide)
      | apply containsInOrder_skip
    rfl
  · simp only [containsInOrderS, generateProposal, String.data_append,
      List.append_assoc, List.map_cons, List.map_nil]
    repeat
      first
      | apply containsInOrder_hit _ (by decide)
      | apply containsInOrder_skip
    rfl

end

end RAI
